import Mathlib

/-!
Verification of the credential-validation service in `backend/main.py`.

The service is one FastAPI handler, `validate_api_key`, that constructs an
OpenAI client with the submitted key, issues one probe request, and maps
the outcome to one of three response classes.  The embedding below models
the `openai` library as a record of the two effectful operations the
handler uses (client construction and `responses.create`), each of which
either returns a value or raises a Python exception, and instruments the
handler with the list of outbound operations it performs.
-/

namespace LLMAQC

/-- Class of a Python exception as seen by the handler's `except` clauses.
`authenticationError` models `openai.AuthenticationError`, which in the
client library is a subclass of `openai.OpenAIError`; `otherOpenAIError`
models an instance of `openai.OpenAIError` that is not an authentication
error; `otherException` models any other Python `Exception`. -/
inductive ExcClass
  | authenticationError
  | otherOpenAIError
  | otherException
  deriving DecidableEq

/-- A Python exception value: its class together with its textual message
(the result of `str(e)`). -/
structure PyExc where
  cls : ExcClass
  msg : String
  deriving DecidableEq

/-- Matching test of the `except openai.AuthenticationError` clause. -/
def isAuthenticationError (e : PyExc) : Bool :=
  match e.cls with
  | ExcClass.authenticationError => true
  | ExcClass.otherOpenAIError => false
  | ExcClass.otherException => false

/-- Matching test of the `except openai.OpenAIError` clause.  An
authentication error is in particular an `OpenAIError`, reflecting the
subclass relation of the client library. -/
def isOpenAIError (e : PyExc) : Bool :=
  match e.cls with
  | ExcClass.authenticationError => true
  | ExcClass.otherOpenAIError => true
  | ExcClass.otherException => false

/-- A flat JSON value, sufficient for the request and response bodies of
this service. -/
inductive JVal
  | str (s : String)
  | num (n : Int)
  | bool (b : Bool)
  | null
  deriving DecidableEq

/-- A JSON object body: an ordered list of field/value pairs. -/
abbrev JsonBody := List (String × JVal)

/-- Input model `APIkeyValidationRequest` (a pydantic `BaseModel`): one
required string field `openai_api_key`. -/
structure APIkeyValidationRequest where
  openai_api_key : String
  deriving DecidableEq

/-- The provider client object returned by `openai.OpenAI(api_key=...)`,
scoped to the one credential it was constructed with. -/
structure Client where
  api_key : String
  deriving DecidableEq

/-- A successful completion returned by `responses.create`.  Its content
is opaque to the handler. -/
structure Completion where
  output_text : String
  deriving DecidableEq

/-- Behaviour of the `openai` library during one invocation.  `mkClient`
models the constructor `openai.OpenAI(api_key=...)`; `responsesCreate`
models the method `client.responses.create(model=..., input=...)`.  Either
step returns a value or raises a Python exception. -/
structure OpenAILib where
  mkClient : String → Except PyExc Client
  responsesCreate : Client → String → String → Except PyExc Completion

/-- Observable outcome of one run of the handler body: a normal JSON
return (sent by the framework as HTTP 200), a raised `HTTPException`
carrying a status code and a detail string, or an exception escaping the
handler uncaught. -/
inductive HandlerResult
  | ok (body : JsonBody)
  | httpError (status_code : Nat) (detail : String)
  | uncaught (e : PyExc)
  deriving DecidableEq

/-- Outbound provider operations performed by the handler, in order. -/
inductive Event
  | constructClient (api_key : String)
  | probeCall (model : String) (input : String)
  deriving DecidableEq

/-- Shallow embedding of the handler `validate_api_key` of
`backend/main.py`, instrumented with the list of outbound provider
operations it performs.  The client is constructed before the `try`
block, so an exception raised there is not caught; inside the `try`
block the three `except` clauses are tried in source order. -/
def validate_api_key (lib : OpenAILib) (req : APIkeyValidationRequest) :
    HandlerResult × List Event :=
  match lib.mkClient req.openai_api_key with
  | Except.error e =>
      (HandlerResult.uncaught e, [Event.constructClient req.openai_api_key])
  | Except.ok ai_api =>
      let events := [Event.constructClient req.openai_api_key,
                     Event.probeCall "gpt-4o-mini" "hello"]
      match lib.responsesCreate ai_api "gpt-4o-mini" "hello" with
      | Except.ok _response => (HandlerResult.ok [("valid", JVal.bool true)], events)
      | Except.error e =>
          if isAuthenticationError e then
            (HandlerResult.httpError 401 "Invalid API key", events)
          else if isOpenAIError e then
            (HandlerResult.httpError 502 ("OpenAI error: " ++ e.msg), events)
          else
            (HandlerResult.httpError 500 "Internal server error", events)

/-- Modelled from the spec: pydantic request-body validation for
`APIkeyValidationRequest` (the validation machinery lives in the external
framework, not in this repository).  A body whose `openai_api_key` field
is present with a string value parses to the model, other fields being
ignored; otherwise the request is rejected with HTTP 422 before the
handler runs. -/
def parseRequest (body : JsonBody) : Except Nat APIkeyValidationRequest :=
  match body.lookup "openai_api_key" with
  | some (JVal.str s) => Except.ok ⟨s⟩
  | _ => Except.error 422

/-- Result of a POST to `/api/validate_api_key`: either the request body
fails validation (the handler is never invoked) or the handler's
outcome. -/
inductive EndpointResult
  | validationError (status_code : Nat)
  | handled (r : HandlerResult)
  deriving DecidableEq

/-- Modelled from the spec: the framework parses the request body against
`APIkeyValidationRequest` and invokes the handler only on success. -/
def postValidateApiKey (lib : OpenAILib) (body : JsonBody) :
    EndpointResult × List Event :=
  match parseRequest body with
  | Except.error code => (EndpointResult.validationError code, [])
  | Except.ok req =>
      let r := validate_api_key lib req
      (EndpointResult.handled r.fst, r.snd)

/-- Modelled from the spec: the HTTP status the framework sends for a
handler outcome.  FastAPI sends 200 for a plain dict return and the
`HTTPException` status code otherwise; an uncaught exception leaves the
handler without producing a response of its own, so it carries no status
chosen by the handler. -/
def handlerStatus : HandlerResult → Option Nat
  | HandlerResult.ok _ => some 200
  | HandlerResult.httpError s _ => some s
  | HandlerResult.uncaught _ => none

/-- Number of outbound probe calls recorded in a trace. -/
def probeCount (evs : List Event) : Nat :=
  evs.countP (fun e =>
    match e with
    | Event.probeCall _ _ => true
    | _ => false)

/-- A provider behaviour under which construction succeeds and the probe
returns a successful completion. -/
def okLib : OpenAILib where
  mkClient := fun k => Except.ok ⟨k⟩
  responsesCreate := fun _ _ _ => Except.ok ⟨"Hello there"⟩

/-- A provider behaviour under which the probe raises
`openai.AuthenticationError`. -/
def authFailLib : OpenAILib where
  mkClient := fun k => Except.ok ⟨k⟩
  responsesCreate := fun _ _ _ =>
    Except.error ⟨ExcClass.authenticationError, "Incorrect API key provided"⟩

/-- A provider behaviour under which the probe raises an
`openai.OpenAIError` that is not an authentication error. -/
def quotaFailLib : OpenAILib where
  mkClient := fun k => Except.ok ⟨k⟩
  responsesCreate := fun _ _ _ =>
    Except.error ⟨ExcClass.otherOpenAIError, "You exceeded your current quota"⟩

/-- A provider behaviour under which the probe raises an exception that is
neither an `OpenAIError` nor an `AuthenticationError`. -/
def crashLib : OpenAILib where
  mkClient := fun k => Except.ok ⟨k⟩
  responsesCreate := fun _ _ _ => Except.error ⟨ExcClass.otherException, "boom"⟩

/-- A provider behaviour under which client construction itself raises an
exception, before the `try` block is entered. -/
def constructFaultLib : OpenAILib where
  mkClient := fun _ => Except.error ⟨ExcClass.otherException, "boom"⟩
  responsesCreate := fun _ _ _ => Except.ok ⟨"Hello there"⟩

/-- Claim C1: if the provider probe returns a successful completion, the
handler returns HTTP 200 with body exactly the JSON object mapping
"valid" to true.  The response is this fixed constant for every
completion `comp`, so no part of the completion's content appears in
it. -/
theorem C1_success_returns_valid_true (lib : OpenAILib)
    (req : APIkeyValidationRequest) (c : Client) (comp : Completion)
    (hc : lib.mkClient req.openai_api_key = Except.ok c)
    (hp : lib.responsesCreate c "gpt-4o-mini" "hello" = Except.ok comp) :
    (validate_api_key lib req).fst = HandlerResult.ok [("valid", JVal.bool true)] ∧
    handlerStatus (validate_api_key lib req).fst = some 200 := by
  simp [validate_api_key, hc, hp, handlerStatus]

/-- Witness for C1 at a concrete provider behaviour and key. -/
theorem C1_witness :
    (validate_api_key okLib ⟨"sk-test"⟩).fst =
      HandlerResult.ok [("valid", JVal.bool true)] ∧
    handlerStatus (validate_api_key okLib ⟨"sk-test"⟩).fst = some 200 :=
  C1_success_returns_valid_true okLib ⟨"sk-test"⟩ ⟨"sk-test"⟩ ⟨"Hello there"⟩ rfl rfl

/-- Claim C2: if the probe raises `openai.AuthenticationError`, the
handler responds with HTTP 401 and detail exactly "Invalid API key". -/
theorem C2_auth_error_401 (lib : OpenAILib) (req : APIkeyValidationRequest)
    (c : Client) (e : PyExc)
    (hc : lib.mkClient req.openai_api_key = Except.ok c)
    (hp : lib.responsesCreate c "gpt-4o-mini" "hello" = Except.error e)
    (ha : e.cls = ExcClass.authenticationError) :
    (validate_api_key lib req).fst = HandlerResult.httpError 401 "Invalid API key" := by
  simp [validate_api_key, hc, hp, isAuthenticationError, ha]

/-- Witness for C2 at a concrete provider behaviour and key. -/
theorem C2_witness :
    (validate_api_key authFailLib ⟨"sk-bad"⟩).fst =
      HandlerResult.httpError 401 "Invalid API key" :=
  C2_auth_error_401 authFailLib ⟨"sk-bad"⟩ ⟨"sk-bad"⟩
    ⟨ExcClass.authenticationError, "Incorrect API key provided"⟩ rfl rfl rfl

/-- Claim C3: if the probe raises an `openai.OpenAIError` that is not an
`openai.AuthenticationError`, the handler responds with HTTP 502 and a
detail equal to "OpenAI error: " followed by the exception's message. -/
theorem C3_provider_error_502 (lib : OpenAILib) (req : APIkeyValidationRequest)
    (c : Client) (e : PyExc)
    (hc : lib.mkClient req.openai_api_key = Except.ok c)
    (hp : lib.responsesCreate c "gpt-4o-mini" "hello" = Except.error e)
    (ho : isOpenAIError e = true)
    (ha : isAuthenticationError e = false) :
    (validate_api_key lib req).fst =
      HandlerResult.httpError 502 ("OpenAI error: " ++ e.msg) := by
  simp [validate_api_key, hc, hp, ha, ho]

/-- Witness for C3 at a concrete provider behaviour and key. -/
theorem C3_witness :
    (validate_api_key quotaFailLib ⟨"sk-test"⟩).fst =
      HandlerResult.httpError 502 ("OpenAI error: " ++ "You exceeded your current quota") :=
  C3_provider_error_502 quotaFailLib ⟨"sk-test"⟩ ⟨"sk-test"⟩
    ⟨ExcClass.otherOpenAIError, "You exceeded your current quota"⟩ rfl rfl rfl rfl

/-- Claim C4 as stated is false: a fault raised while constructing the
provider client (a step the source places before the `try` block) escapes
the handler uncaught instead of producing the 500 response with detail
"Internal server error". -/
theorem C4_counterexample :
    (validate_api_key constructFaultLib ⟨"sk-test"⟩).fst =
      HandlerResult.uncaught ⟨ExcClass.otherException, "boom"⟩ ∧
    (validate_api_key constructFaultLib ⟨"sk-test"⟩).fst ≠
      HandlerResult.httpError 500 "Internal server error" := by
  constructor
  · rfl
  · intro h
    simp [validate_api_key, constructFaultLib] at h

/-- Claim C4 (amended): if the probe call raises an exception that is
neither an `openai.AuthenticationError` nor any other `openai.OpenAIError`,
the handler responds with HTTP 500 and detail exactly "Internal server
error".  The response is this fixed constant for every such exception `e`,
so no text of the underlying exception appears in it; a fault raised
before the `try` block, during construction of the provider client,
instead escapes the handler uncaught. -/
theorem C4_unexpected_error_500 (lib : OpenAILib) (req : APIkeyValidationRequest)
    (c : Client) (e : PyExc)
    (hc : lib.mkClient req.openai_api_key = Except.ok c)
    (hp : lib.responsesCreate c "gpt-4o-mini" "hello" = Except.error e)
    (he : e.cls = ExcClass.otherException) :
    (validate_api_key lib req).fst = HandlerResult.httpError 500 "Internal server error" := by
  simp [validate_api_key, hc, hp, isAuthenticationError, isOpenAIError, he]

/-- Witness for the amended C4 at a concrete provider behaviour and key. -/
theorem C4_witness :
    (validate_api_key crashLib ⟨"sk-test"⟩).fst =
      HandlerResult.httpError 500 "Internal server error" :=
  C4_unexpected_error_500 crashLib ⟨"sk-test"⟩ ⟨"sk-test"⟩
    ⟨ExcClass.otherException, "boom"⟩ rfl rfl rfl

/-- Claim C5: the authentication-specific clause is checked before the
generic provider-error clause.  For every probe failure that is an
authentication error — which, by the subclass relation, is also a generic
`OpenAIError` — the classification is 401 "Invalid API key" and never a
502 response, whatever its detail. -/
theorem C5_auth_checked_before_generic (lib : OpenAILib)
    (req : APIkeyValidationRequest) (c : Client) (e : PyExc)
    (hc : lib.mkClient req.openai_api_key = Except.ok c)
    (hp : lib.responsesCreate c "gpt-4o-mini" "hello" = Except.error e)
    (ha : isAuthenticationError e = true) :
    isOpenAIError e = true ∧
    (validate_api_key lib req).fst = HandlerResult.httpError 401 "Invalid API key" ∧
    ∀ d : String, (validate_api_key lib req).fst ≠ HandlerResult.httpError 502 d := by
  have hcls : e.cls = ExcClass.authenticationError := by
    cases hcase : e.cls <;> simp [isAuthenticationError, hcase] at ha ⊢
  refine ⟨by simp [isOpenAIError, hcls], by simp [validate_api_key, hc, hp, ha], ?_⟩
  intro d h
  simp [validate_api_key, hc, hp, ha] at h

/-- Witness for C5 at a concrete provider behaviour and key. -/
theorem C5_witness :
    isOpenAIError ⟨ExcClass.authenticationError, "Incorrect API key provided"⟩ = true ∧
    (validate_api_key authFailLib ⟨"sk-bad"⟩).fst =
      HandlerResult.httpError 401 "Invalid API key" ∧
    ∀ d : String,
      (validate_api_key authFailLib ⟨"sk-bad"⟩).fst ≠ HandlerResult.httpError 502 d :=
  C5_auth_checked_before_generic authFailLib ⟨"sk-bad"⟩ ⟨"sk-bad"⟩
    ⟨ExcClass.authenticationError, "Incorrect API key provided"⟩ rfl rfl rfl

/-- Claim C6: a request body lacking the `openai_api_key` field is
rejected by request-body validation with HTTP 422; the handler body never
runs, so the trace of outbound provider operations is empty, whatever the
provider behaviour. -/
theorem C6_missing_key_422 (lib : OpenAILib) (body : JsonBody)
    (h : body.lookup "openai_api_key" = none) :
    postValidateApiKey lib body = (EndpointResult.validationError 422, []) := by
  simp [postValidateApiKey, parseRequest, h]

/-- Witness for C6 at a concrete body with no `openai_api_key` field. -/
theorem C6_witness :
    postValidateApiKey okLib [("some_other_field", JVal.str "x")] =
      (EndpointResult.validationError 422, []) :=
  C6_missing_key_422 okLib [("some_other_field", JVal.str "x")] rfl

/-- Claim C7: every invocation of the handler performs at most one
outbound probe call; exactly one when client construction succeeds, and
none when it fails.  The handler is a pure function of the request and
the provider behaviour, so it mutates no service state. -/
theorem C7_exactly_one_probe (lib : OpenAILib) (req : APIkeyValidationRequest) :
    probeCount (validate_api_key lib req).snd ≤ 1 ∧
    ((∃ c, lib.mkClient req.openai_api_key = Except.ok c) →
      probeCount (validate_api_key lib req).snd = 1) ∧
    (∀ e, lib.mkClient req.openai_api_key = Except.error e →
      probeCount (validate_api_key lib req).snd = 0) := by
  refine ⟨?_, ?_, ?_⟩
  · cases hc : lib.mkClient req.openai_api_key with
    | error e => simp [validate_api_key, hc, probeCount]
    | ok c =>
        cases hp : lib.responsesCreate c "gpt-4o-mini" "hello" with
        | ok comp => simp [validate_api_key, hc, hp, probeCount]
        | error e =>
            by_cases ha : isAuthenticationError e = true <;>
              by_cases ho : isOpenAIError e = true <;>
                simp [validate_api_key, hc, hp, ha, ho, probeCount]
  · rintro ⟨c, hc⟩
    cases hp : lib.responsesCreate c "gpt-4o-mini" "hello" with
    | ok comp => simp [validate_api_key, hc, hp, probeCount]
    | error e =>
        by_cases ha : isAuthenticationError e = true <;>
          by_cases ho : isOpenAIError e = true <;>
            simp [validate_api_key, hc, hp, ha, ho, probeCount]
  · intro e hc
    simp [validate_api_key, hc, probeCount]

/-- Witness for C7 at a concrete provider behaviour, discharging the
construction-succeeds hypothesis of the second conjunct. -/
theorem C7_witness :
    probeCount (validate_api_key okLib ⟨"sk-test"⟩).snd = 1 :=
  (C7_exactly_one_probe okLib ⟨"sk-test"⟩).2.1 ⟨⟨"sk-test"⟩, rfl⟩

/-- Claim C8: the handler is a deterministic function of the credential
and the provider's behaviour: two invocations with the same credential
under provider behaviours that agree on that credential's construction
outcome and on the probe outcome produce identical results. -/
theorem C8_deterministic (lib lib' : OpenAILib) (req : APIkeyValidationRequest)
    (h1 : lib.mkClient req.openai_api_key = lib'.mkClient req.openai_api_key)
    (h2 : ∀ c, lib.responsesCreate c "gpt-4o-mini" "hello" =
               lib'.responsesCreate c "gpt-4o-mini" "hello") :
    validate_api_key lib req = validate_api_key lib' req := by
  unfold validate_api_key
  rw [← h1]
  cases hc : lib.mkClient req.openai_api_key with
  | error e => rfl
  | ok c =>
      dsimp only
      rw [← h2 c]

/-- Witness for C8: two invocations under the same provider behaviour
yield the same result. -/
theorem C8_witness :
    validate_api_key okLib ⟨"sk-test"⟩ = validate_api_key okLib ⟨"sk-test"⟩ :=
  C8_deterministic okLib okLib ⟨"sk-test"⟩ rfl (fun _ => rfl)

/-- Field lookup skips every pair whose key differs from the one looked
up. -/
theorem lookup_append_of_not_mem (pre rest : JsonBody)
    (hpre : ∀ p ∈ pre, p.fst ≠ "openai_api_key") :
    (pre ++ rest).lookup "openai_api_key" = rest.lookup "openai_api_key" := by
  induction pre with
  | nil => rfl
  | cons p ps ih =>
      have hp : p.fst ≠ "openai_api_key" := hpre p (List.mem_cons_self p ps)
      have hne : ("openai_api_key" == p.fst) = false := by
        simp [beq_iff_eq]
        exact fun h => hp h.symm
      cases p with
      | mk k v =>
          simp only [List.cons_append, List.lookup]
          rw [hne]
          exact ih (fun q hq => hpre q (List.mem_cons_of_mem _ hq))

/-- Claim C10: a request body containing a string `openai_api_key` field
together with any other fields (of different names) passes validation;
the extra fields are ignored and the handler runs on exactly the supplied
key. -/
theorem C10_extra_fields_ignored (lib : OpenAILib) (pre post : JsonBody)
    (s : String) (hpre : ∀ p ∈ pre, p.fst ≠ "openai_api_key") :
    postValidateApiKey lib (pre ++ ("openai_api_key", JVal.str s) :: post) =
      (EndpointResult.handled (validate_api_key lib ⟨s⟩).fst,
       (validate_api_key lib ⟨s⟩).snd) := by
  have hl : (pre ++ ("openai_api_key", JVal.str s) :: post).lookup "openai_api_key" =
      some (JVal.str s) := by
    rw [lookup_append_of_not_mem pre _ hpre]
    simp [List.lookup]
  simp [postValidateApiKey, parseRequest, hl]

/-- Witness for C10 at a concrete body with one extra unknown field. -/
theorem C10_witness :
    postValidateApiKey okLib
        [("extra_field", JVal.bool true), ("openai_api_key", JVal.str "sk-test")] =
      (EndpointResult.handled (validate_api_key okLib ⟨"sk-test"⟩).fst,
       (validate_api_key okLib ⟨"sk-test"⟩).snd) :=
  C10_extra_fields_ignored okLib [("extra_field", JVal.bool true)] [] "sk-test"
    (by intro p hp; simp at hp; subst hp; decide)

end LLMAQC
